import Mathlib

set_option maxHeartbeats 1000000

/-! Shallow embedding of the v8ray core (src/core/src): the reconnect policy
(connection/reconnect.rs), the traffic statistics collector
(connection/stats.rs), the engine log parser and process supervisor
(xray/mod.rs) and the connection orchestrator (connection/mod.rs), together
with theorems settling the specification claims about them.

Modelling conventions: Rust `u64`/`u32` counters are `Nat` with an explicit
`% 2 ^ 64` where the code can wrap; `Duration` values and the `f64` backoff
arithmetic are modelled as exact rational (`ℚ`) seconds — exact at every
concretely claimed point, since those only involve small powers of two;
`chrono` timestamps are `Int` seconds passed in as parameters; strings are
`List Char` where character-level slicing matters. -/

/-- Reconnect strategy, from `ReconnectStrategy` in connection/reconnect.rs.
Durations are rational seconds; `multiplier : f64` is modelled as `ℚ`. -/
inductive ReconnectStrategy where
  | Disabled : ReconnectStrategy
  | Immediate : ReconnectStrategy
  | FixedDelay : ℚ → ReconnectStrategy
  | ExponentialBackoff : ℚ → ℚ → ℚ → ReconnectStrategy
  deriving DecidableEq

/-- `ReconnectStrategy::default()`: exponential backoff 1s initial, 60s max,
multiplier 2.0. -/
def ReconnectStrategy.default_strategy : ReconnectStrategy :=
  .ExponentialBackoff 1 60 2

/-- Reconnect configuration, from `ReconnectConfig` in connection/reconnect.rs.
`max_attempts : u32` is modelled as `Nat` (only order comparisons are used). -/
structure ReconnectConfig where
  strategy : ReconnectStrategy
  max_attempts : Nat
  enabled : Bool
  deriving DecidableEq

/-- `ReconnectConfig::default()`. -/
def ReconnectConfig.default_config : ReconnectConfig :=
  { strategy := ReconnectStrategy.default_strategy, max_attempts := 5, enabled := true }

/-- `ReconnectConfig::disabled()`. -/
def ReconnectConfig.disabled : ReconnectConfig :=
  { strategy := .Disabled, max_attempts := 0, enabled := false }

/-- `ReconnectConfig::immediate(max_attempts)`. -/
def ReconnectConfig.immediate (max_attempts : Nat) : ReconnectConfig :=
  { strategy := .Immediate, max_attempts := max_attempts, enabled := true }

/-- `ReconnectConfig::fixed_delay(delay, max_attempts)`. -/
def ReconnectConfig.fixed_delay (delay : ℚ) (max_attempts : Nat) : ReconnectConfig :=
  { strategy := .FixedDelay delay, max_attempts := max_attempts, enabled := true }

/-- `ReconnectConfig::exponential_backoff(initial, max, multiplier, max_attempts)`. -/
def ReconnectConfig.exponential_backoff (initial_delay max_delay multiplier : ℚ)
    (max_attempts : Nat) : ReconnectConfig :=
  { strategy := .ExponentialBackoff initial_delay max_delay multiplier,
    max_attempts := max_attempts, enabled := true }

/-- `ReconnectConfig::should_reconnect(current_attempts)`, translated
branch-for-branch from connection/reconnect.rs lines 108-128. -/
def ReconnectConfig.should_reconnect (c : ReconnectConfig) (current_attempts : Nat) : Bool :=
  if !c.enabled then false
  else if c.strategy = ReconnectStrategy.Disabled then false
  else if c.max_attempts > 0 && decide (current_attempts ≥ c.max_attempts) then false
  else true

/-- `ReconnectConfig::calculate_delay(attempt)` from connection/reconnect.rs
lines 131-153: `initial_delay.as_secs_f64() * multiplier.powi(attempt as i32)`
capped by `max_delay`. The `attempt : u32` argument is a `Nat` reduced mod
`2 ^ 32`, and the `as i32` cast is modelled exactly: attempts at or above
`2 ^ 31` wrap to a negative exponent (integer `zpow`). The `f64` arithmetic is
idealized as exact rational arithmetic; this is exact at every point the
theorems below use (powers of two only), but it does not carry `f64` special
values — in particular, when `initial_delay = 0` and the power overflows to
infinity the real code returns `max_delay` (the `0 * inf` NaN is dropped by
`f64::min`) where this model returns `0`, and a `multiplier` of `0` raised to
a wrapped negative exponent is `inf` in `f64` but `0` here; the amended claim
is therefore restricted to positive `initial_delay` and `multiplier`. -/
def ReconnectConfig.calculate_delay (c : ReconnectConfig) (attempt : Nat) : ℚ :=
  match c.strategy with
  | .Disabled => 0
  | .Immediate => 0
  | .FixedDelay delay => delay
  | .ExponentialBackoff initial_delay max_delay multiplier =>
      let wrapped : Nat := attempt % 2 ^ 32
      let exp : Int := if wrapped < 2 ^ 31 then (wrapped : Int) else (wrapped : Int) - 2 ^ 32
      min (initial_delay * multiplier ^ exp) max_delay

/-- Traffic statistics snapshot, from `TrafficSnapshot` in connection/stats.rs;
the `chrono` timestamp is modelled as `Int` seconds. -/
structure TrafficSnapshot where
  timestamp : Int
  upload_bytes : Nat
  download_bytes : Nat
  upload_speed : Nat
  download_speed : Nat
  deriving DecidableEq

/-- State of `TrafficStatsCollector` (connection/stats.rs): the two `u64`
totals, the bounded snapshot deque, its capacity, and the last snapshot. -/
structure TrafficStatsCollector where
  upload_bytes : Nat
  download_bytes : Nat
  snapshots : List TrafficSnapshot
  max_snapshots : Nat
  last_snapshot : Option TrafficSnapshot
  deriving DecidableEq

/-- Wrap-around bound for the `u64` counters. -/
def U64MOD : Nat := 2 ^ 64

/-- `TrafficStatsCollector::new(max_snapshots)`. -/
def TrafficStatsCollector.new (max_snapshots : Nat) : TrafficStatsCollector :=
  { upload_bytes := 0, download_bytes := 0, snapshots := [],
    max_snapshots := max_snapshots, last_snapshot := none }

/-- `TrafficStatsCollector::update_traffic(upload, download)`: adds the
arguments to the running `u64` totals. -/
def TrafficStatsCollector.update_traffic (c : TrafficStatsCollector)
    (upload download : Nat) : TrafficStatsCollector :=
  { c with upload_bytes := (c.upload_bytes + upload) % U64MOD,
           download_bytes := (c.download_bytes + download) % U64MOD }

/-- `TrafficStatsCollector::get_totals()`. -/
def TrafficStatsCollector.get_totals (c : TrafficStatsCollector) : Nat × Nat :=
  (c.upload_bytes, c.download_bytes)

/-- `TrafficStatsCollector::reset()`: zeroes the totals and clears the
snapshot history and the last snapshot. -/
def TrafficStatsCollector.reset (c : TrafficStatsCollector) : TrafficStatsCollector :=
  { c with upload_bytes := 0, download_bytes := 0, snapshots := [], last_snapshot := none }

/-- The `while snapshots.len() > max_snapshots { snapshots.pop_front(); }`
loop of `take_snapshot`. -/
def popFrontWhileOver (mx : Nat) : List α → List α
  | [] => []
  | x :: xs => if xs.length + 1 > mx then popFrontWhileOver mx xs else x :: xs

/-- `TrafficStatsCollector::take_snapshot()` from connection/stats.rs lines
97-152, with the current time passed in as `now`; speeds use saturating
subtraction and the `f64` division truncated to `u64` is modelled as `Nat`
floor division. Returns the snapshot and the updated collector. -/
def TrafficStatsCollector.take_snapshot (c : TrafficStatsCollector) (now : Int) :
    TrafficSnapshot × TrafficStatsCollector :=
  let upload := c.upload_bytes
  let download := c.download_bytes
  let speeds :=
    match c.last_snapshot with
    | some last_snap =>
        let time_diff : Int := now - last_snap.timestamp
        if 0 < time_diff then
          ((upload - last_snap.upload_bytes) / time_diff.toNat,
           (download - last_snap.download_bytes) / time_diff.toNat)
        else (0, 0)
    | none => (0, 0)
  let snapshot : TrafficSnapshot :=
    { timestamp := now, upload_bytes := upload, download_bytes := download,
      upload_speed := speeds.1, download_speed := speeds.2 }
  (snapshot,
   { c with last_snapshot := some snapshot,
            snapshots := popFrontWhileOver c.max_snapshots (c.snapshots ++ [snapshot]) })

/-- One call against the collector: a traffic update or a snapshot taken at
time `now`. -/
inductive StatsOp where
  | update : Nat → Nat → StatsOp
  | snapshot : Int → StatsOp
  deriving DecidableEq

/-- Apply one call to the collector state. -/
def TrafficStatsCollector.applyOp (c : TrafficStatsCollector) : StatsOp → TrafficStatsCollector
  | .update up down => c.update_traffic up down
  | .snapshot now => (c.take_snapshot now).2

/-- Run a sequence of calls against the collector. -/
def TrafficStatsCollector.runOps (c : TrafficStatsCollector) : List StatsOp → TrafficStatsCollector
  | [] => c
  | op :: rest => (c.applyOp op).runOps rest

/-- The snapshots produced (in order) by a sequence of calls. -/
def TrafficStatsCollector.producedSnapshots (c : TrafficStatsCollector) :
    List StatsOp → List TrafficSnapshot
  | [] => []
  | .update up down :: rest => (c.update_traffic up down).producedSnapshots rest
  | .snapshot now :: rest =>
      (c.take_snapshot now).1 :: ((c.take_snapshot now).2).producedSnapshots rest

lemma popFrontWhileOver_eq_drop (mx : Nat) (l : List α) :
    popFrontWhileOver mx l = l.drop (l.length - mx) := by
  induction l with
  | nil => simp [popFrontWhileOver]
  | cons x xs ih =>
      by_cases h : xs.length + 1 > mx
      · have hd : xs.length + 1 - mx = (xs.length - mx) + 1 := by omega
        simp only [popFrontWhileOver, h, if_true, ih, List.length_cons, hd,
          List.drop_succ_cons]
      · have hd : xs.length + 1 - mx = 0 := by omega
        simp only [popFrontWhileOver, h, if_false, List.length_cons, hd, List.drop_zero]

lemma take_snapshot_snapshots (c : TrafficStatsCollector) (now : Int) :
    ((c.take_snapshot now).2).snapshots =
      (c.snapshots ++ [(c.take_snapshot now).1]).drop
        (c.snapshots.length + 1 - c.max_snapshots) := by
  show popFrontWhileOver c.max_snapshots (c.snapshots ++ [(c.take_snapshot now).1]) = _
  rw [popFrontWhileOver_eq_drop]
  simp

lemma runOps_spec (ops : List StatsOp) : ∀ c : TrafficStatsCollector,
    c.snapshots.length ≤ c.max_snapshots →
    (c.runOps ops).max_snapshots = c.max_snapshots ∧
    (c.runOps ops).snapshots =
      (c.snapshots ++ c.producedSnapshots ops).drop
        (c.snapshots.length + (c.producedSnapshots ops).length - c.max_snapshots) := by
  induction ops with
  | nil =>
      intro c hlen
      refine ⟨rfl, ?_⟩
      show c.snapshots = _
      simp only [TrafficStatsCollector.producedSnapshots, List.append_nil, List.length_nil,
        Nat.add_zero, Nat.sub_eq_zero_of_le hlen, List.drop_zero]
  | cons op rest ih =>
      intro c hlen
      cases op with
      | update up down =>
          have hc : (c.update_traffic up down).snapshots = c.snapshots := rfl
          have hm : (c.update_traffic up down).max_snapshots = c.max_snapshots := rfl
          have hres := ih (c.update_traffic up down) (by rw [hc, hm]; exact hlen)
          have h1 : c.runOps (StatsOp.update up down :: rest) =
              (c.update_traffic up down).runOps rest := rfl
          have h2 : c.producedSnapshots (StatsOp.update up down :: rest) =
              (c.update_traffic up down).producedSnapshots rest := rfl
          rw [h1, h2, ← hc, ← hm]
          exact hres
      | snapshot now =>
          have hm : ((c.take_snapshot now).2).max_snapshots = c.max_snapshots := rfl
          have hsnap := take_snapshot_snapshots c now
          have hlen2 : ((c.take_snapshot now).2).snapshots.length ≤
              ((c.take_snapshot now).2).max_snapshots := by
            rw [hsnap, hm, List.length_drop]
            simp only [List.length_append, List.length_cons, List.length_nil]
            omega
          obtain ⟨ihm, ihs⟩ := ih (c.take_snapshot now).2 hlen2
          have h1 : c.runOps (StatsOp.snapshot now :: rest) =
              ((c.take_snapshot now).2).runOps rest := rfl
          have h2 : c.producedSnapshots (StatsOp.snapshot now :: rest) =
              (c.take_snapshot now).1 :: ((c.take_snapshot now).2).producedSnapshots rest := rfl
          refine ⟨by rw [h1, ihm, hm], ?_⟩
          rw [h1, ihs, hsnap, hm, h2]
          have hassoc : c.snapshots ++ (c.take_snapshot now).1 ::
              ((c.take_snapshot now).2).producedSnapshots rest =
              (c.snapshots ++ [(c.take_snapshot now).1]) ++
                ((c.take_snapshot now).2).producedSnapshots rest := by
            simp
          rw [hassoc, List.length_drop]
          have hle : c.snapshots.length + 1 - c.max_snapshots ≤
              (c.snapshots ++ [(c.take_snapshot now).1]).length := by
            simp only [List.length_append, List.length_cons, List.length_nil]
            omega
          rw [← List.drop_append_of_le_length hle, List.drop_drop]
          congr 1
          simp only [List.length_append, List.length_cons, List.length_nil]
          omega

/-- Claim C3: `should_reconnect(n)` is false exactly when auto-reconnect is
disabled, the strategy is `Disabled`, or a positive `max_attempts` has been
reached; in particular with the default config (`max_attempts = 5`) it flips
from true at 4 to false at 5, and with `max_attempts = 0` it is always true. -/
theorem should_reconnect_correct (c : ReconnectConfig) (n : Nat) :
    (c.should_reconnect n = true ↔
      (c.enabled = true ∧ c.strategy ≠ ReconnectStrategy.Disabled ∧
        (c.max_attempts = 0 ∨ n < c.max_attempts)))
    ∧ ReconnectConfig.default_config.should_reconnect 5 = false
    ∧ ReconnectConfig.default_config.should_reconnect 4 = true
    ∧ ∀ k : Nat,
        ({ ReconnectConfig.default_config with max_attempts := 0 }).should_reconnect k = true := by
  refine ⟨?_, by decide, by decide, fun k => ?_⟩
  · unfold ReconnectConfig.should_reconnect
    by_cases he : c.enabled <;> by_cases hs : c.strategy = ReconnectStrategy.Disabled <;>
      simp [he, hs] <;> try omega
  · unfold ReconnectConfig.should_reconnect
    simp [ReconnectConfig.default_config, ReconnectStrategy.default_strategy]

/-- Claim C4 counterexample: at attempt `2 ^ 32 - 1` (a valid `u32`) the
`as i32` cast wraps the exponent to `-1`, so the 1s/60s/2.0 backoff yields
exactly half a second — every `f64` operation involved is exact — instead of
the `min(1 * 2 ^ (2 ^ 32 - 1), 60) = 60` seconds the claim asserts for every
attempt number. -/
theorem calculate_delay_cast_cex :
    (ReconnectConfig.exponential_backoff 1 60 2 10).calculate_delay (2 ^ 32 - 1) = 1 / 2
    ∧ min ((1 : ℚ) * 2 ^ (2 ^ 32 - 1 : Nat)) 60 = 60
    ∧ ¬ ((ReconnectConfig.exponential_backoff 1 60 2 10).calculate_delay (2 ^ 32 - 1)
          = min ((1 : ℚ) * 2 ^ (2 ^ 32 - 1 : Nat)) 60) := by
  have h1 : (ReconnectConfig.exponential_backoff 1 60 2 10).calculate_delay (2 ^ 32 - 1)
      = 1 / 2 := by
    unfold ReconnectConfig.calculate_delay ReconnectConfig.exponential_backoff
    norm_num
  have h60 : (60 : ℚ) ≤ 2 ^ (2 ^ 32 - 1 : Nat) :=
    le_trans (by norm_num : (60 : ℚ) ≤ 2 ^ 6) (pow_le_pow_right₀ one_le_two (by norm_num))
  have h2 : min ((1 : ℚ) * 2 ^ (2 ^ 32 - 1 : Nat)) 60 = 60 := by
    rw [one_mul]
    exact min_eq_right h60
  refine ⟨h1, h2, ?_⟩
  intro h
  rw [h1, h2] at h
  norm_num at h

/-- Claim C4 as amended: `calculate_delay(n)` is zero for `Immediate` and
`Disabled` and the fixed duration for `FixedDelay` at every attempt; for
`ExponentialBackoff` the exponent is the attempt cast to `i32`, so for
attempts below `2 ^ 31` — all attempts a configured retry limit can reach —
and positive initial delay and multiplier (avoiding the `f64` NaN/infinity
corners of `powi` and `min`) the delay is `min(initial * multiplier^n, max)`;
for initial 1s, max 60s, multiplier 2.0 the delays at attempts 0,1,2,3 are
1s,2s,4s,8s and attempt 10 is capped at exactly 60s. -/
theorem calculate_delay_correct (n ma : Nat) (en : Bool) (d i m mult : ℚ) :
    (ReconnectConfig.mk ReconnectStrategy.Immediate ma en).calculate_delay n = 0
    ∧ (ReconnectConfig.mk ReconnectStrategy.Disabled ma en).calculate_delay n = 0
    ∧ (ReconnectConfig.mk (ReconnectStrategy.FixedDelay d) ma en).calculate_delay n = d
    ∧ (n < 2 ^ 31 → 0 < i → 0 < mult →
        (ReconnectConfig.mk (ReconnectStrategy.ExponentialBackoff i m mult) ma en).calculate_delay n
          = min (i * mult ^ n) m)
    ∧ (ReconnectConfig.exponential_backoff 1 60 2 10).calculate_delay 0 = 1
    ∧ (ReconnectConfig.exponential_backoff 1 60 2 10).calculate_delay 1 = 2
    ∧ (ReconnectConfig.exponential_backoff 1 60 2 10).calculate_delay 2 = 4
    ∧ (ReconnectConfig.exponential_backoff 1 60 2 10).calculate_delay 3 = 8
    ∧ (ReconnectConfig.exponential_backoff 1 60 2 10).calculate_delay 10 = 60 := by
  refine ⟨rfl, rfl, rfl, ?_, ?_, ?_, ?_, ?_, ?_⟩
  · intro hn _hi _hmult
    unfold ReconnectConfig.calculate_delay
    have hmod : n % 2 ^ 32 = n := Nat.mod_eq_of_lt (by omega)
    simp only [hmod]
    rw [if_pos hn, zpow_natCast]
  all_goals
    unfold ReconnectConfig.calculate_delay ReconnectConfig.exponential_backoff
    norm_num

/-- Witness for the amended claim C4, discharging the range and positivity
hypotheses of the exponential-backoff conjunct at attempt 3 with the
1s/60s/2.0 configuration. -/
theorem calculate_delay_correct_witness :
    (ReconnectConfig.mk (ReconnectStrategy.ExponentialBackoff 1 60 2) 10 true).calculate_delay 3
      = min ((1 : ℚ) * 2 ^ (3 : Nat)) 60 :=
  (calculate_delay_correct 3 10 true 0 1 60 2).2.2.2.1
    (by norm_num) (by norm_num) (by norm_num)

/-- The five-snapshot run used by the history-bound claim. -/
def fiveSnapshotOps : List StatsOp :=
  [StatsOp.snapshot 1, StatsOp.snapshot 2, StatsOp.snapshot 3,
   StatsOp.snapshot 4, StatsOp.snapshot 5]

/-- Claim C8: for a collector created with capacity `cap`, after any sequence
of calls the retained history is exactly the `min(n, cap)` most recent of the
`n` snapshots taken, in oldest-first order; in particular 5 snapshots into a
capacity-3 collector leave exactly the snapshots taken at times 3, 4, 5. -/
theorem snapshot_history_bound (cap : Nat) (ops : List StatsOp) :
    ((TrafficStatsCollector.new cap).runOps ops).snapshots =
      ((TrafficStatsCollector.new cap).producedSnapshots ops).drop
        (((TrafficStatsCollector.new cap).producedSnapshots ops).length - cap)
    ∧ ((TrafficStatsCollector.new cap).runOps ops).snapshots.length =
        min ((TrafficStatsCollector.new cap).producedSnapshots ops).length cap
    ∧ ((TrafficStatsCollector.new 3).runOps fiveSnapshotOps).snapshots.map
        (fun s => s.timestamp) = [3, 4, 5]
    ∧ ((TrafficStatsCollector.new 3).producedSnapshots fiveSnapshotOps).length = 5 := by
  have hbase : (TrafficStatsCollector.new cap).snapshots.length ≤
      (TrafficStatsCollector.new cap).max_snapshots := by
    simp [TrafficStatsCollector.new]
  obtain ⟨-, hs⟩ := runOps_spec ops (TrafficStatsCollector.new cap) hbase
  have hs2 : ((TrafficStatsCollector.new cap).runOps ops).snapshots =
      ((TrafficStatsCollector.new cap).producedSnapshots ops).drop
        (((TrafficStatsCollector.new cap).producedSnapshots ops).length - cap) := by
    rw [hs]; simp [TrafficStatsCollector.new]
  refine ⟨hs2, ?_, by decide, by decide⟩
  rw [hs2, List.length_drop]
  omega

/-- The collector state after the two traffic updates of the accumulation
claim, starting from a fresh default-capacity collector. -/
def twoUpdatesCollector : TrafficStatsCollector :=
  ((TrafficStatsCollector.new 100).update_traffic 1000 2000).update_traffic 500 1000

/-- Claim C9: from a fresh collector, `update_traffic(1000,2000)` then
`update_traffic(500,1000)` leaves the totals at exactly (1500, 3000) —
`update_traffic` adds its arguments to the running totals — and a subsequent
`reset()` (here after a snapshot, so the cleared history is non-trivial)
leaves totals (0,0), an empty snapshot history, and no last snapshot. -/
theorem traffic_accumulation_reset :
    twoUpdatesCollector.get_totals = (1500, 3000)
    ∧ (∀ (c : TrafficStatsCollector) (up down : Nat),
        (c.update_traffic up down).upload_bytes = (c.upload_bytes + up) % U64MOD
        ∧ (c.update_traffic up down).download_bytes = (c.download_bytes + down) % U64MOD)
    ∧ ((twoUpdatesCollector.take_snapshot 1).2).reset.get_totals = (0, 0)
    ∧ ((twoUpdatesCollector.take_snapshot 1).2).reset.snapshots = []
    ∧ ((twoUpdatesCollector.take_snapshot 1).2).reset.last_snapshot = none
    ∧ (∀ c : TrafficStatsCollector,
        c.reset.get_totals = (0, 0) ∧ c.reset.snapshots = [] ∧ c.reset.last_snapshot = none) := by
  exact ⟨by decide, fun c up down => ⟨rfl, rfl⟩, by decide, by decide, by decide,
    fun c => ⟨rfl, rfl, rfl⟩⟩

/-- Character-level strings, used where Rust slices strings by index. -/
abbrev Str := List Char

/-- Split at the first space, returning the part before it and the rest. -/
def splitOnceAtSpace : Str → Option (Str × Str)
  | [] => none
  | c :: rest =>
      if c = ' ' then some ([], rest)
      else (splitOnceAtSpace rest).map (fun p => (c :: p.1, p.2))

/-- Rust `line.splitn(3, ' ')`: at most three parts, the last keeping any
remaining spaces. -/
def splitn3 (l : Str) : List Str :=
  match splitOnceAtSpace l with
  | none => [l]
  | some (a, rest) =>
      match splitOnceAtSpace rest with
      | none => [a, rest]
      | some (b, rest2) => [a, b, rest2]

/-- Rust `str::trim`: strip whitespace from both ends. -/
def trimStr (l : Str) : Str :=
  ((l.dropWhile Char.isWhitespace).reverse.dropWhile Char.isWhitespace).reverse

/-- Log entry, from `XrayLogEntry` in xray/mod.rs. -/
structure XrayLogEntry where
  timestamp : Str
  level : Str
  message : Str
  deriving DecidableEq

/-- `XrayCore::parse_log_line` from xray/mod.rs lines 760-792, character for
character: split into at most three space-separated parts; with three parts,
join the first two as the timestamp and look for the first closing bracket in
the third; slicing `[1..level_end]` with the bracket at index 0 is a Rust
slice-bounds panic, modelled as `none`. The fallback timestamp
`chrono::Utc::now().to_rfc3339()` is passed in as `nowRfc3339`. -/
def parse_log_line (nowRfc3339 : Str) (line : Str) : Option XrayLogEntry :=
  match splitn3 line with
  | [p0, p1, level_and_msg] =>
      let timestamp := p0 ++ ' ' :: p1
      match level_and_msg.findIdx? (fun ch => ch = ']') with
      | some level_end =>
          if level_end = 0 then none
          else some { timestamp := timestamp,
                      level := (level_and_msg.drop 1).take (level_end - 1),
                      message := trimStr (level_and_msg.drop (level_end + 1)) }
      | none =>
          some { timestamp := timestamp, level := "Info".toList, message := level_and_msg }
  | _ => some { timestamp := nowRfc3339, level := "Info".toList, message := line }

/-- Specification-side definition, following the wording of the claim: a line
matches the bracketed-level pattern `<date> <time> [<Level>] <message>` when
it splits into date, time and a remainder that starts with an opening bracket
and contains a closing one. -/
def specBracketedPattern (line : Str) : Bool :=
  match splitn3 line with
  | [_, _, rest] =>
      match rest with
      | '[' :: tail => tail.any (fun ch => ch = ']')
      | _ => false
  | _ => false

/-- A line that does not match the bracketed-level pattern but still contains
a closing bracket in its third field. -/
def cexLogLine : Str := "2024/01/01 12:00:00 x]hello".toList

/-- A line matching the bracketed-level pattern. -/
def matchLogLine : Str := "2024/01/01 12:00:00 [Info] Xray started".toList

/-- Claim C2 counterexample: `cexLogLine` does not match the bracketed-level
pattern, yet `parse_log_line` returns level `""` (not `"Info"`) and message
`"hello"` (not the whole line): the parser keys on the first closing bracket
alone and never checks for an opening one. -/
theorem parse_log_line_unbracketed_cex :
    specBracketedPattern cexLogLine = false
    ∧ parse_log_line "1970-01-01T00:00:00+00:00".toList cexLogLine =
        some (XrayLogEntry.mk "2024/01/01 12:00:00".toList [] "hello".toList)
    ∧ ¬ ([] : Str) = "Info".toList
    ∧ ¬ ("hello".toList = cexLogLine) := by
  refine ⟨by decide, by decide, by decide, by decide⟩

/-- Claim C2 as amended: with fewer than three space-separated fields the
line is wrapped whole as level Info; with three fields, the first two joined
form the timestamp and the third field is inspected for its first closing
bracket — absent, the entry is level Info with only the third field as
message; at index `j > 0`, the level is the text strictly between index 1 and
`j` (no opening bracket is required) and the message is the text after `j`,
trimmed; at index 0 the Rust slice `[1..0]` panics. -/
theorem parse_log_line_characterization (now line : Str) :
    ((splitn3 line).length < 3 →
      parse_log_line now line = some (XrayLogEntry.mk now "Info".toList line))
    ∧ (∀ d t rest, splitn3 line = [d, t, rest] →
        rest.findIdx? (fun ch => ch = ']') = none →
        parse_log_line now line = some (XrayLogEntry.mk (d ++ ' ' :: t) "Info".toList rest))
    ∧ (∀ d t rest j, splitn3 line = [d, t, rest] →
        rest.findIdx? (fun ch => ch = ']') = some j → 0 < j →
        parse_log_line now line =
          some (XrayLogEntry.mk (d ++ ' ' :: t) ((rest.drop 1).take (j - 1))
            (trimStr (rest.drop (j + 1)))))
    ∧ (∀ d t rest, splitn3 line = [d, t, rest] →
        rest.findIdx? (fun ch => ch = ']') = some 0 →
        parse_log_line now line = none) := by
  refine ⟨?_, ?_, ?_, ?_⟩
  · intro hlen
    rcases hsp : splitn3 line with _ | ⟨a, _ | ⟨b, _ | ⟨c, tl⟩⟩⟩
    · simp [parse_log_line, hsp]
    · simp [parse_log_line, hsp]
    · simp [parse_log_line, hsp]
    · cases tl with
      | nil => rw [hsp] at hlen; simp at hlen
      | cons x xs => simp [parse_log_line, hsp]
  · intro d t rest hsp hfind
    simp [parse_log_line, hsp, hfind]
  · intro d t rest j hsp hfind hj
    simp only [parse_log_line, hsp, hfind]
    rw [if_neg (by omega)]
  · intro d t rest hsp hfind
    simp [parse_log_line, hsp, hfind]

/-- Witness for the amended claim C2 at a genuinely matching log line. -/
theorem parse_log_line_characterization_witness :
    parse_log_line "x".toList matchLogLine =
      some (XrayLogEntry.mk "2024/01/01 12:00:00".toList "Info".toList
        "Xray started".toList) := by
  have h := (parse_log_line_characterization "x".toList matchLogLine).2.2.1
    "2024/01/01".toList "12:00:00".toList "[Info] Xray started".toList 5
    (by decide) (by decide) (by decide)
  exact h.trans (by decide)

/-- JSON documents, standing for `serde_json::Value`; objects keep fields in
insertion order. -/
inductive Json where
  | null : Json
  | bool : Bool → Json
  | num : Nat → Json
  | str : String → Json
  | arr : List Json → Json
  | obj : List (String × Json) → Json

/-- `Value::as_str()`. -/
def Json.as_str : Json → Option String
  | .str s => some s
  | _ => none

/-- `Value::as_u64()`. -/
def Json.as_u64 : Json → Option Nat
  | .num n => some n
  | _ => none

/-- `settings.get(key).and_then(|v| v.as_str()).unwrap_or(dflt)`. -/
def getStrSetting (settings : List (String × Json)) (key dflt : String) : String :=
  ((settings.lookup key).bind Json.as_str).getD dflt

/-- `settings.get(key).and_then(|v| v.as_u64()).unwrap_or(dflt)`. -/
def getNatSetting (settings : List (String × Json)) (key : String) (dflt : Nat) : Nat :=
  ((settings.lookup key).bind Json.as_u64).getD dflt

/-- `LogConfig` from xray/mod.rs. -/
structure LogConfig where
  level : String
  access : Option String
  error : Option String

/-- `DnsConfig` from xray/mod.rs. -/
structure DnsConfig where
  servers : List String

/-- `InboundConfig` from xray/mod.rs. -/
structure InboundConfig where
  port : Nat
  protocol : String
  listen : Option String
  settings : Option Json

/-- `OutboundConfig` from xray/mod.rs. -/
structure OutboundConfig where
  tag : Option String
  protocol : String
  settings : Option Json
  stream_settings : Option Json

/-- `RoutingConfig` from xray/mod.rs. -/
structure RoutingConfig where
  domain_strategy : Option String
  rules : List Json

/-- `XrayConfig` from xray/mod.rs. -/
structure XrayConfig where
  log : LogConfig
  dns : Option DnsConfig
  inbounds : List InboundConfig
  outbounds : List OutboundConfig
  routing : Option RoutingConfig

/-- `XrayConfig::default()` from xray/mod.rs lines 802-834. -/
def XrayConfig.default_config : XrayConfig :=
  { log := { level := "warning", access := none, error := none },
    dns := none,
    inbounds := [{ port := 8080, protocol := "http", listen := some "127.0.0.1",
                   settings := none },
                 { port := 1080, protocol := "socks", listen := some "127.0.0.1",
                   settings := none }],
    outbounds := [{ tag := none, protocol := "freedom", settings := none,
                    stream_settings := none }],
    routing := none }

/-- `ProxyProtocol` from config/mod.rs. -/
inductive ProxyProtocol where
  | Vless : ProxyProtocol
  | Vmess : ProxyProtocol
  | Trojan : ProxyProtocol
  | Shadowsocks : ProxyProtocol
  | Http : ProxyProtocol
  | Socks : ProxyProtocol
  deriving DecidableEq

/-- `TlsSettings` from config/mod.rs. -/
structure TlsSettings where
  server_name : Option String
  allow_insecure : Bool
  alpn : List String
  fingerprint : Option String

/-- `WsSettings` from config/mod.rs; the `HashMap` of headers is modelled as
an association list (serde_json renders the map with sorted keys, so the list
is taken in that, fixed, order). -/
structure WsSettings where
  path : String
  headers : List (String × String)

/-- `GrpcSettings` from config/mod.rs. -/
structure GrpcSettings where
  service_name : String
  multi_mode : Bool

/-- `StreamSettings` from config/mod.rs. -/
structure StreamSettings where
  network : String
  security : String
  tls_settings : Option TlsSettings
  tcp_settings : Option Json
  ws_settings : Option WsSettings
  http_settings : Option Json
  quic_settings : Option Json
  grpc_settings : Option GrpcSettings

/-- `ProxyServerConfig` from config/mod.rs; `chrono` timestamps as `Int`. -/
structure ProxyServerConfig where
  id : String
  name : String
  server : String
  port : Nat
  protocol : ProxyProtocol
  settings : List (String × Json)
  stream_settings : Option StreamSettings
  tags : List String
  created_at : Int
  updated_at : Int

/-- `XrayConfigGenerator` from xray/mod.rs lines 837-857. -/
structure XrayConfigGenerator where
  http_port : Nat
  socks_port : Nat
  log_level : String

/-- `XrayConfigGenerator::new()`. -/
def XrayConfigGenerator.new : XrayConfigGenerator :=
  { http_port := 8080, socks_port := 1080, log_level := "warning" }

/-- `generate_smart_routing_rules` from xray/mod.rs lines 962-990: private
IP ranges, then China domains, then China IPs, all to the direct outbound. -/
def XrayConfigGenerator.generate_smart_routing_rules (_g : XrayConfigGenerator) : List Json :=
  [Json.obj [("type", Json.str "field"), ("outboundTag", Json.str "direct"),
             ("ip", Json.arr [Json.str "geoip:private"])],
   Json.obj [("type", Json.str "field"), ("outboundTag", Json.str "direct"),
             ("domain", Json.arr [Json.str "geosite:cn"])],
   Json.obj [("type", Json.str "field"), ("outboundTag", Json.str "direct"),
             ("ip", Json.arr [Json.str "geoip:cn"])]]

/-- `generate_routing(mode)` from xray/mod.rs lines 940-959; the Rust `match`
on the mode string becomes an if-chain over the same disjoint literals. -/
def XrayConfigGenerator.generate_routing (g : XrayConfigGenerator) (mode : String) :
    RoutingConfig :=
  let rules :=
    if mode = "smart" then g.generate_smart_routing_rules
    else if mode = "global" then []
    else if mode = "direct" then
      [Json.obj [("type", Json.str "field"), ("outboundTag", Json.str "direct"),
                 ("network", Json.str "tcp,udp")]]
    else []
  { domain_strategy := some "IPIfNonMatch", rules := rules }

/-- `generate_stream_settings` from xray/mod.rs lines 1104-1158; inserting a
key into the `json!` object is modelled by appending the field. -/
def XrayConfigGenerator.generate_stream_settings (_g : XrayConfigGenerator)
    (p : ProxyServerConfig) : Option Json :=
  match p.stream_settings with
  | none => none
  | some ss =>
      let fields := [("network", Json.str ss.network), ("security", Json.str ss.security)]
      let fields := fields ++
        (if ss.security = "tls" then
          match ss.tls_settings with
          | some tls =>
              [("tlsSettings", Json.obj
                 ([("allowInsecure", Json.bool tls.allow_insecure)]
                  ++ (match tls.server_name with
                      | some sn => [("serverName", Json.str sn)]
                      | none => [])
                  ++ (if tls.alpn ≠ [] then [("alpn", Json.arr (tls.alpn.map Json.str))]
                      else [])
                  ++ (match tls.fingerprint with
                      | some f => [("fingerprint", Json.str f)]
                      | none => [])))]
          | none => []
        else [])
      let fields := fields ++
        (if ss.network = "ws" then
          match ss.ws_settings with
          | some ws =>
              [("wsSettings", Json.obj
                 [("path", Json.str ws.path),
                  ("headers", Json.obj (ws.headers.map (fun h => (h.1, Json.str h.2))))])]
          | none => []
        else [])
      let fields := fields ++
        (if ss.network = "grpc" then
          match ss.grpc_settings with
          | some gs =>
              [("grpcSettings", Json.obj
                 [("serviceName", Json.str gs.service_name),
                  ("multiMode", Json.bool gs.multi_mode)])]
          | none => []
        else [])
      some (Json.obj fields)

/-- `generate_vmess_outbound` from xray/mod.rs lines 1009-1032. -/
def XrayConfigGenerator.generate_vmess_outbound (g : XrayConfigGenerator)
    (p : ProxyServerConfig) : OutboundConfig :=
  let vnext := Json.arr
    [Json.obj [("address", Json.str p.server), ("port", Json.num p.port),
               ("users", Json.arr
                  [Json.obj [("id", Json.str (getStrSetting p.settings "id" "")),
                             ("alterId", Json.num (getNatSetting p.settings "alterId" 0)),
                             ("security", Json.str (getStrSetting p.settings "security" "auto"))]])]]
  { tag := none, protocol := "vmess", settings := some (Json.obj [("vnext", vnext)]),
    stream_settings := g.generate_stream_settings p }

/-- `generate_vless_outbound` from xray/mod.rs lines 1035-1058. -/
def XrayConfigGenerator.generate_vless_outbound (g : XrayConfigGenerator)
    (p : ProxyServerConfig) : OutboundConfig :=
  let vnext := Json.arr
    [Json.obj [("address", Json.str p.server), ("port", Json.num p.port),
               ("users", Json.arr
                  [Json.obj [("id", Json.str (getStrSetting p.settings "id" "")),
                             ("encryption", Json.str (getStrSetting p.settings "encryption" "none")),
                             ("flow", Json.str (getStrSetting p.settings "flow" ""))]])]]
  { tag := none, protocol := "vless", settings := some (Json.obj [("vnext", vnext)]),
    stream_settings := g.generate_stream_settings p }

/-- `generate_trojan_outbound` from xray/mod.rs lines 1061-1080. -/
def XrayConfigGenerator.generate_trojan_outbound (g : XrayConfigGenerator)
    (p : ProxyServerConfig) : OutboundConfig :=
  let servers := Json.arr
    [Json.obj [("address", Json.str p.server), ("port", Json.num p.port),
               ("password", Json.str (getStrSetting p.settings "password" ""))]]
  { tag := none, protocol := "trojan", settings := some (Json.obj [("servers", servers)]),
    stream_settings := g.generate_stream_settings p }

/-- `generate_shadowsocks_outbound` from xray/mod.rs lines 1083-1101. -/
def XrayConfigGenerator.generate_shadowsocks_outbound (_g : XrayConfigGenerator)
    (p : ProxyServerConfig) : OutboundConfig :=
  let servers := Json.arr
    [Json.obj [("address", Json.str p.server), ("port", Json.num p.port),
               ("method", Json.str (getStrSetting p.settings "method" "aes-256-gcm")),
               ("password", Json.str (getStrSetting p.settings "password" ""))]]
  { tag := none, protocol := "shadowsocks", settings := some (Json.obj [("servers", servers)]),
    stream_settings := none }

/-- `generate_outbound` from xray/mod.rs lines 993-1006. -/
def XrayConfigGenerator.generate_outbound (g : XrayConfigGenerator)
    (p : ProxyServerConfig) : OutboundConfig :=
  match p.protocol with
  | .Vmess => g.generate_vmess_outbound p
  | .Vless => g.generate_vless_outbound p
  | .Trojan => g.generate_trojan_outbound p
  | .Shadowsocks => g.generate_shadowsocks_outbound p
  | _ => { tag := none, protocol := "freedom", settings := none, stream_settings := none }

/-- `generate_with_mode(proxy_config, mode)` from xray/mod.rs lines 883-937. -/
def XrayConfigGenerator.generate_with_mode (g : XrayConfigGenerator)
    (p : ProxyServerConfig) (mode : String) : XrayConfig :=
  let log : LogConfig := { level := g.log_level, access := none, error := none }
  let dns := if mode = "smart" then some (DnsConfig.mk ["1.1.1.1", "8.8.8.8"]) else none
  let inbounds : List InboundConfig :=
    [{ port := g.http_port, protocol := "http", listen := some "127.0.0.1", settings := none },
     { port := g.socks_port, protocol := "socks", listen := some "127.0.0.1", settings := none }]
  let outbound := { g.generate_outbound p with tag := some "proxy" }
  let outbounds := [outbound,
                    { tag := some "direct", protocol := "freedom", settings := none,
                      stream_settings := none }]
  let routing := some (g.generate_routing mode)
  { log := log, dns := dns, inbounds := inbounds, outbounds := outbounds, routing := routing }

/-- `generate(proxy_config)`: `generate_with_mode` with mode `"global"`. -/
def XrayConfigGenerator.generate (g : XrayConfigGenerator) (p : ProxyServerConfig) : XrayConfig :=
  g.generate_with_mode p "global"

/-- Serde rendering of an optional string field (no skip attribute). -/
def optStrJson : Option String → Json
  | some s => Json.str s
  | none => Json.null

/-- Serde rendering of an optional raw JSON field (no skip attribute). -/
def optJson : Option Json → Json
  | some j => j
  | none => Json.null

/-- Serde document of `LogConfig`. -/
def LogConfig.toJsonDoc (l : LogConfig) : Json :=
  Json.obj [("level", Json.str l.level), ("access", optStrJson l.access),
            ("error", optStrJson l.error)]

/-- Serde document of `InboundConfig`. -/
def InboundConfig.toJsonDoc (i : InboundConfig) : Json :=
  Json.obj [("port", Json.num i.port), ("protocol", Json.str i.protocol),
            ("listen", optStrJson i.listen), ("settings", optJson i.settings)]

/-- Serde document of `OutboundConfig` (`tag` is skipped when `none`,
`stream_settings` renames to `streamSettings`). -/
def OutboundConfig.toJsonDoc (o : OutboundConfig) : Json :=
  Json.obj ((match o.tag with | some t => [("tag", Json.str t)] | none => [])
    ++ [("protocol", Json.str o.protocol), ("settings", optJson o.settings),
        ("streamSettings", optJson o.stream_settings)])

/-- Serde document of `RoutingConfig` (`domain_strategy` renames to
`domainStrategy`). -/
def RoutingConfig.toJsonDoc (r : RoutingConfig) : Json :=
  Json.obj [("domainStrategy", optStrJson r.domain_strategy), ("rules", Json.arr r.rules)]

/-- Serde document of a full `XrayConfig` (`dns` is skipped when `none`):
the document written to the engine's `config.json`. -/
def XrayConfig.toJsonDoc (c : XrayConfig) : Json :=
  Json.obj ([("log", c.log.toJsonDoc)]
    ++ (match c.dns with
        | some d => [("dns", Json.obj [("servers", Json.arr (d.servers.map Json.str))])]
        | none => [])
    ++ [("inbounds", Json.arr (c.inbounds.map InboundConfig.toJsonDoc)),
        ("outbounds", Json.arr (c.outbounds.map OutboundConfig.toJsonDoc)),
        ("routing", match c.routing with | some r => r.toJsonDoc | none => Json.null)])

/-- Claim C5: `generate_with_mode` yields, for any descriptor: mode "global"
a routing block with no rules; mode "direct" exactly one rule sending all
TCP/UDP traffic to the direct outbound; mode "smart" exactly the ordered
rules private-IPs→direct, China-domains→direct, China-IPs→direct; and a DNS
block with exactly the two public resolvers 1.1.1.1 and 8.8.8.8 in smart
mode and no DNS block otherwise. -/
theorem generate_with_mode_routing (g : XrayConfigGenerator) (p : ProxyServerConfig) :
    ((g.generate_with_mode p "global").routing =
      some { domain_strategy := some "IPIfNonMatch", rules := [] })
    ∧ ((g.generate_with_mode p "direct").routing =
      some { domain_strategy := some "IPIfNonMatch",
             rules := [Json.obj [("type", Json.str "field"),
                                 ("outboundTag", Json.str "direct"),
                                 ("network", Json.str "tcp,udp")]] })
    ∧ ((g.generate_with_mode p "smart").routing =
      some { domain_strategy := some "IPIfNonMatch",
             rules := [Json.obj [("type", Json.str "field"),
                                 ("outboundTag", Json.str "direct"),
                                 ("ip", Json.arr [Json.str "geoip:private"])],
                       Json.obj [("type", Json.str "field"),
                                 ("outboundTag", Json.str "direct"),
                                 ("domain", Json.arr [Json.str "geosite:cn"])],
                       Json.obj [("type", Json.str "field"),
                                 ("outboundTag", Json.str "direct"),
                                 ("ip", Json.arr [Json.str "geoip:cn"])]] })
    ∧ (∀ mode : String, (g.generate_with_mode p mode).dns =
        if mode = "smart" then some (DnsConfig.mk ["1.1.1.1", "8.8.8.8"]) else none) := by
  exact ⟨rfl, rfl, rfl, fun mode => rfl⟩

/-- A concrete sample descriptor, used to instantiate hypotheses at a point. -/
def sampleProxyConfig : ProxyServerConfig :=
  { id := "cfg-1", name := "Test Server", server := "example.com", port := 443,
    protocol := ProxyProtocol.Vless, settings := [("id", Json.str "test-uuid")],
    stream_settings := none, tags := [], created_at := 0, updated_at := 0 }

/-- Claim C6: the generator is deterministic — two calls with identical
descriptor and mode produce identical documents (hence byte-identical
serializations), and the document never depends on the descriptor's
timestamps; it contains no randomness or time input at all, as
`generate_with_mode` is a pure function of generator, descriptor and mode. -/
theorem generate_with_mode_deterministic (g : XrayConfigGenerator)
    (p q : ProxyServerConfig) (mode mode2 : String)
    (hp : p = q) (hm : mode = mode2) :
    XrayConfig.toJsonDoc (g.generate_with_mode p mode) =
      XrayConfig.toJsonDoc (g.generate_with_mode q mode2)
    ∧ ∀ t1 t2 : Int,
        XrayConfig.toJsonDoc
            (g.generate_with_mode { p with created_at := t1, updated_at := t2 } mode) =
          XrayConfig.toJsonDoc (g.generate_with_mode p mode) := by
  subst hp hm
  refine ⟨rfl, fun t1 t2 => ?_⟩
  cases p
  rfl

/-- Witness for claim C6 at a concrete descriptor and mode. -/
theorem generate_with_mode_deterministic_witness :
    XrayConfig.toJsonDoc (XrayConfigGenerator.new.generate_with_mode sampleProxyConfig "smart") =
      XrayConfig.toJsonDoc (XrayConfigGenerator.new.generate_with_mode sampleProxyConfig "smart") :=
  (generate_with_mode_deterministic XrayConfigGenerator.new sampleProxyConfig
    sampleProxyConfig "smart" "smart" rfl rfl).1

/-- `XrayStatus` from xray/mod.rs. -/
inductive XrayStatus where
  | Stopped : XrayStatus
  | Starting : XrayStatus
  | Running : XrayStatus
  | Stopping : XrayStatus
  | Error : String → XrayStatus
  deriving DecidableEq

/-- `XrayHealth` from xray/mod.rs (`last_check : SystemTime` as `Int`). -/
structure XrayHealth where
  pid : Option Nat
  uptime : Nat
  last_check : Int
  is_responsive : Bool
  deriving DecidableEq

/-- `XrayEvent` from xray/mod.rs: the events broadcast on the supervisor's
event bus. -/
inductive XrayEvent where
  | StatusChanged : XrayStatus → XrayEvent
  | LogReceived : XrayLogEntry → XrayEvent
  | HealthCheck : XrayHealth → XrayEvent
  deriving DecidableEq

/-- Whether an event is a `StatusChanged` carrying an `Error` status. -/
def XrayEvent.isErrorStatus : XrayEvent → Bool
  | .StatusChanged (.Error _) => true
  | _ => false

/-- `XrayError` from xray/mod.rs (the supervisor error enum): `Io` carries
the display of the wrapped `std::io::Error`. -/
inductive XrayError where
  | Io : String → XrayError
  | Process : String → XrayError
  | Config : String → XrayError
  | NotFound : XrayError
  deriving DecidableEq

/-- The `Display` strings of `XrayError`, from its `thiserror` attributes. -/
def XrayError.displayString : XrayError → String
  | .Io m => "IO error: " ++ m
  | .Process m => "Process error: " ++ m
  | .Config m => "Configuration error: " ++ m
  | .NotFound => "Xray Core not found"

/-- The lock-guarded fields of `XrayCore` (xray/mod.rs lines 167-186) that
`start`/`stop` read or write. -/
structure XrayCoreState where
  status : XrayStatus
  process_pid : Option Nat
  config : Option XrayConfig
  start_time : Option Int
  health : Option XrayHealth

/-- The state of a freshly constructed `XrayCore` (`XrayCore::new`). -/
def XrayCoreState.initial : XrayCoreState :=
  { status := XrayStatus.Stopped, process_pid := none, config := none,
    start_time := none, health := none }

/-- Outcomes of the external-world steps taken by `XrayCore::start`, in
program order: binary lookup (`none` = not found), config serialization,
the binary path's parent directory, the config-file write (`Except`
error = io error display), the two metadata probes, `spawn` (`Except` ok
carries `child.id()`), `try_wait` after the 100 ms grace sleep (`ok (some s)`
= exited with status display `s`), the stdout/stderr captures, and the
current instant. -/
structure StartEnv where
  find_binary : Option String
  serialize_config : Except String String
  parent_dir : Option String
  write_config : Except String Unit
  xray_metadata : Except String Unit
  config_metadata : Except String Unit
  spawn : Except String (Option Nat)
  try_wait : Except String (Option String)
  capture_stdout : Bool
  capture_stderr : Bool
  now : Int

/-- `XrayCore::start(config)` from xray/mod.rs lines 269-454, step for step
against the environment `env`: returns the call's result, the supervisor
state afterwards, and the events published on the bus during the call. The
spawned monitor/reaper/health tasks act after `start` returns and are not
part of the returned event list. -/
def XrayCoreState.start (st : XrayCoreState) (env : StartEnv) (config : XrayConfig) :
    Except XrayError Unit × XrayCoreState × List XrayEvent :=
  if st.status = XrayStatus.Running then (.ok (), st, [])
  else
    let evs := [XrayEvent.StatusChanged XrayStatus.Starting]
    let st := { st with status := XrayStatus.Starting, config := some config }
    match env.find_binary with
    | none => (.error XrayError.NotFound, st, evs)
    | some _xray_path =>
        match env.serialize_config with
        | .error e => (.error (XrayError.Config e), st, evs)
        | .ok _config_content =>
            match env.parent_dir with
            | none => (.error (XrayError.Process "Failed to get Xray directory"), st, evs)
            | some _xray_dir =>
                match env.write_config with
                | .error e => (.error (XrayError.Io e), st, evs)
                | .ok _ =>
                    match env.xray_metadata with
                    | .error e =>
                        (.error (XrayError.Process ("Failed to get xray metadata: " ++ e)),
                         st, evs)
                    | .ok _ =>
                        match env.config_metadata with
                        | .error e =>
                            (.error (XrayError.Process ("Failed to get config metadata: " ++ e)),
                             st, evs)
                        | .ok _ =>
                            match env.spawn with
                            | .error e =>
                                (.error (XrayError.Process
                                   ("Failed to spawn Xray process: " ++ e)), st, evs)
                            | .ok none =>
                                (.error (XrayError.Process "Failed to get process ID"), st, evs)
                            | .ok (some pid) =>
                                let st := { st with process_pid := some pid }
                                match env.try_wait with
                                | .ok (some exit_status) =>
                                    (.error (XrayError.Process
                                       ("Xray process exited immediately with status: "
                                         ++ exit_status)), st, evs)
                                | .error e =>
                                    (.error (XrayError.Process
                                       ("Failed to check process status: " ++ e)), st, evs)
                                | .ok none =>
                                    if !env.capture_stdout then
                                      (.error (XrayError.Process "Failed to capture stdout"),
                                       st, evs)
                                    else if !env.capture_stderr then
                                      (.error (XrayError.Process "Failed to capture stderr"),
                                       st, evs)
                                    else
                                      (.ok (),
                                       { st with start_time := some env.now,
                                                 status := XrayStatus.Running },
                                       evs ++ [XrayEvent.StatusChanged XrayStatus.Running])

/-- `XrayCore::stop()` from xray/mod.rs lines 457-572: a no-op when already
stopped, otherwise publish Stopping, take and signal the pid (signal results
are only logged), clear start time and health, publish Stopped; it always
returns `Ok`. -/
def XrayCoreState.stop (st : XrayCoreState) :
    Except XrayError Unit × XrayCoreState × List XrayEvent :=
  if st.status = XrayStatus.Stopped then (.ok (), st, [])
  else
    (.ok (),
     { st with status := XrayStatus.Stopped, process_pid := none,
               start_time := none, health := none },
     [XrayEvent.StatusChanged XrayStatus.Stopping,
      XrayEvent.StatusChanged XrayStatus.Stopped])

/-- `ConnectionState` from connection/mod.rs. -/
inductive ConnectionState where
  | Disconnected : ConnectionState
  | Connecting : ConnectionState
  | Connected : ConnectionState
  | Disconnecting : ConnectionState
  | Reconnecting : ConnectionState
  | Error : String → ConnectionState
  deriving DecidableEq

/-- `ConnectionError` from connection/mod.rs. -/
inductive ConnectionError where
  | XrayStartFailed : String → ConnectionError
  | XrayCrashed : String → ConnectionError
  | ConfigError : String → ConnectionError
  | NetworkError : String → ConnectionError
  | Timeout : String → ConnectionError
  | Unknown : String → ConnectionError
  deriving DecidableEq

/-- `ConnectionStats` from connection/mod.rs (`chrono` timestamps as `Int`). -/
structure ConnectionStats where
  upload : Nat
  download : Nat
  start_time : Int
  last_activity : Int
  deriving DecidableEq

/-- `Connection` from connection/mod.rs (`Uuid` as `String`). -/
structure Connection where
  id : String
  name : String
  server : String
  state : ConnectionState
  stats : Option ConnectionStats
  config_id : String
  last_error : Option ConnectionError
  reconnect_attempts : Nat
  deriving DecidableEq

/-- `crate::error::XrayError` from error.rs (the crate-wide Xray error enum,
distinct from the supervisor's own `XrayError`). -/
inductive CrateXrayError where
  | Process : String → CrateXrayError
  | NotFound : CrateXrayError
  | StartFailed : String → CrateXrayError
  | StopFailed : String → CrateXrayError
  | InvalidConfig : String → CrateXrayError
  | Api : String → CrateXrayError
  deriving DecidableEq

/-- `crate::error::V8RayError` from error.rs, restricted to the variants the
modelled connection operations can construct (the Config, Connection,
Subscription, Platform, Network and Storage variants are never built by
`connect`/`disconnect` and are omitted). -/
inductive V8RayError where
  | Xray : CrateXrayError → V8RayError
  | Generic : String → V8RayError
  deriving DecidableEq

/-- The lock-guarded fields of `ConnectionManager` (connection/mod.rs lines
89-104). -/
structure ConnectionManager where
  current_connection : Option Connection
  history : List Connection
  xray : XrayCoreState
  current_config : Option ProxyServerConfig
  reconnect_config : ReconnectConfig
  stats_collector : TrafficStatsCollector

/-- `ConnectionManager::new()`. -/
def ConnectionManager.new : ConnectionManager :=
  { current_connection := none, history := [], xray := XrayCoreState.initial,
    current_config := none, reconnect_config := ReconnectConfig.default_config,
    stats_collector := TrafficStatsCollector.new 100 }

/-- `ConnectionManager::get_state()`: the current connection's state, or
`Disconnected` when there is none. -/
def ConnectionManager.get_state (m : ConnectionManager) : ConnectionState :=
  (m.current_connection.map (fun c => c.state)).getD ConnectionState.Disconnected

/-- `ConnectionManager::disconnect()` from connection/mod.rs lines 265-310:
mark the live record Disconnecting, stop the engine (errors only logged),
mark the record Disconnected and push it into the 100-bounded history,
clear the live slot and the stored descriptor; always returns `Ok`. -/
def ConnectionManager.disconnect (m : ConnectionManager) :
    Except V8RayError Unit × ConnectionManager × List XrayEvent :=
  let conn1 := m.current_connection.map (fun c => { c with state := ConnectionState.Disconnecting })
  let m1 := { m with current_connection := conn1 }
  let stopRes := m1.xray.stop
  let m2 := { m1 with xray := stopRes.2.1 }
  let m3 :=
    match m2.current_connection with
    | some conn =>
        let conn2 := { conn with state := ConnectionState.Disconnected }
        let hist := m2.history ++ [conn2]
        let hist := if hist.length > 100 then hist.tail else hist
        { m2 with history := hist, current_connection := none }
    | none => { m2 with current_connection := none }
  let m4 := { m3 with current_config := none }
  (.ok (), m4, stopRes.2.2)

/-- The first half of `connect_with_config_and_mode` (connection/mod.rs lines
167-213): disconnect any non-disconnected live connection, install a fresh
`Connecting` record (its `Uuid::new_v4` and `Utc::now` passed in), and store
the descriptor. -/
def ConnectionManager.connect_prep (m : ConnectionManager) (uuid : String) (now : Int)
    (config : ProxyServerConfig) : ConnectionManager × List XrayEvent :=
  let pre :=
    if m.get_state ≠ ConnectionState.Disconnected then
      let r := m.disconnect
      (r.2.1, r.2.2)
    else (m, [])
  let conn : Connection :=
    { id := uuid, name := config.name,
      server := config.server ++ ":" ++ toString config.port,
      state := ConnectionState.Connecting,
      stats := some { upload := 0, download := 0, start_time := now, last_activity := now },
      config_id := config.id, last_error := none, reconnect_attempts := 0 }
  ({ pre.1 with current_connection := some conn, current_config := some config }, pre.2)

/-- `ConnectionManager::connect_with_config_and_mode` (connection/mod.rs
lines 167-237): prepare, generate the engine config for the mode, start the
engine; on success mark Connected, on failure mark `Error` with the
supervisor error's display string, record `last_error`, and return
`V8RayError::Xray(XrayError::Process(display))`. -/
def ConnectionManager.connect_with_config_and_mode (m : ConnectionManager) (env : StartEnv)
    (uuid : String) (now : Int) (config : ProxyServerConfig) (mode : String) :
    Except V8RayError Unit × ConnectionManager × List XrayEvent :=
  match (m.connect_prep uuid now config).1.xray.start env
      (XrayConfigGenerator.new.generate_with_mode config mode) with
  | (.ok _, xst, evs2) =>
      (.ok (),
       { (m.connect_prep uuid now config).1 with
           xray := xst,
           current_connection := (m.connect_prep uuid now config).1.current_connection.map
             (fun c => { c with state := ConnectionState.Connected }) },
       (m.connect_prep uuid now config).2 ++ evs2)
  | (.error e, xst, evs2) =>
      (.error (V8RayError.Xray (CrateXrayError.Process e.displayString)),
       { (m.connect_prep uuid now config).1 with
           xray := xst,
           current_connection := (m.connect_prep uuid now config).1.current_connection.map
             (fun c => { c with state := ConnectionState.Error e.displayString,
                                last_error := some (ConnectionError.XrayStartFailed e.displayString) }) },
       (m.connect_prep uuid now config).2 ++ evs2)

/-- An environment in which the engine binary is missing and everything else
would succeed. -/
def envNotFound : StartEnv :=
  { find_binary := none, serialize_config := .ok "", parent_dir := some "/bin",
    write_config := .ok (), xray_metadata := .ok (), config_metadata := .ok (),
    spawn := .ok (some 1234), try_wait := .ok none, capture_stdout := true,
    capture_stderr := true, now := 0 }

/-- An environment in which every step of `start` succeeds. -/
def envHappy : StartEnv := { envNotFound with find_binary := some "/bin/xray" }

/-- An otherwise successful environment in which the spawned process has
already exited, with status display `s`, when the grace-interval check runs. -/
def envExitedDuringGrace (s : String) : StartEnv :=
  { envHappy with try_wait := .ok (some s) }

/-- Claim C1 counterexample: on the binary-not-found failure path `start`
returns the typed `NotFound` error, but the only event published is
`StatusChanged(Starting)` — no `StatusChanged(Error)` event accompanies the
returned error. -/
theorem start_failure_no_error_event_cex :
    (XrayCoreState.initial.start envNotFound XrayConfig.default_config).1 =
      .error XrayError.NotFound
    ∧ (XrayCoreState.initial.start envNotFound XrayConfig.default_config).2.2 =
        [XrayEvent.StatusChanged XrayStatus.Starting]
    ∧ ((XrayCoreState.initial.start envNotFound XrayConfig.default_config).2.2).all
        (fun ev => !ev.isErrorStatus) = true := by
  exact ⟨rfl, rfl, rfl⟩

/-- Claim C1 as amended: every failure path of `start` returns a typed error,
but publishes no `Error` status event — the only event published during a
failing `start` is `StatusChanged(Starting)`; and when the process exits
during the post-spawn grace interval, the typed error is the `Process`
variant carrying the exit status. -/
theorem start_failure_typed_error_no_error_event (env : StartEnv) (st : XrayCoreState)
    (config : XrayConfig) (e : XrayError)
    (h : (st.start env config).1 = .error e) :
    (st.start env config).2.2 = [XrayEvent.StatusChanged XrayStatus.Starting]
    ∧ ((st.start env config).2.2).all (fun ev => !ev.isErrorStatus) = true
    ∧ ∀ s : String, (XrayCoreState.initial.start (envExitedDuringGrace s) config).1 =
        .error (XrayError.Process ("Xray process exited immediately with status: " ++ s)) := by
  have hev : (st.start env config).2.2 = [XrayEvent.StatusChanged XrayStatus.Starting] := by
    by_cases hs : st.status = XrayStatus.Running
    · exfalso
      have : (st.start env config).1 = .ok () := by
        unfold XrayCoreState.start
        rw [if_pos hs]
      rw [this] at h
      exact Except.noConfusion h
    · unfold XrayCoreState.start at h ⊢
      rw [if_neg hs] at h ⊢
      repeat' split
      all_goals simp_all
  refine ⟨hev, by rw [hev]; rfl, fun s => rfl⟩

/-- Witness for the amended claim C1 at the binary-not-found failure. -/
theorem start_failure_typed_error_no_error_event_witness :
    (XrayCoreState.initial.start envNotFound XrayConfig.default_config).2.2 =
      [XrayEvent.StatusChanged XrayStatus.Starting] :=
  (start_failure_typed_error_no_error_event envNotFound XrayCoreState.initial
    XrayConfig.default_config XrayError.NotFound rfl).1

/-- A connection record whose state is already `Disconnected` while still
occupying the live slot (reachable through the public `update_state`). -/
def disconnectedConn : Connection :=
  { id := "conn-1", name := "Test Server", server := "example.com:443",
    state := ConnectionState.Disconnected, stats := none, config_id := "cfg-1",
    last_error := none, reconnect_attempts := 0 }

/-- A manager whose live slot holds `disconnectedConn`. -/
def mgrWithDisconnectedRecord : ConnectionManager :=
  { ConnectionManager.new with current_connection := some disconnectedConn }

/-- A supervisor state whose status is `Running`. -/
def runningXrayState : XrayCoreState :=
  { XrayCoreState.initial with status := XrayStatus.Running }

/-- Claim C7 counterexample: with the connection state already `Disconnected`
(a record in state `Disconnected` still in the live slot), `disconnect`
returns success but does not leave the history unchanged — it moves the
record into history and clears the slot. -/
theorem disconnect_on_disconnected_record_cex :
    mgrWithDisconnectedRecord.get_state = ConnectionState.Disconnected
    ∧ mgrWithDisconnectedRecord.disconnect.1 = .ok ()
    ∧ ¬ (mgrWithDisconnectedRecord.disconnect.2.1.history =
          mgrWithDisconnectedRecord.history)
    ∧ ¬ (mgrWithDisconnectedRecord.disconnect.2.1.current_connection =
          mgrWithDisconnectedRecord.current_connection) := by
  refine ⟨rfl, rfl, by decide, by decide⟩

/-- Claim C7 as amended: `start` on a `Running` supervisor is a complete
no-op returning success; `disconnect` always returns success, and when the
live slot is empty (the state every completed disconnect leaves behind) it
leaves the slot and the history unchanged; but when the slot still holds a
record — even one already in state `Disconnected` — `disconnect` clears the
slot and appends the record, marked `Disconnected`, to the 100-bounded
history. -/
theorem lifecycle_idempotence (env : StartEnv) (st : XrayCoreState) (config : XrayConfig)
    (m m2 : ConnectionManager) (conn : Connection)
    (hrun : st.status = XrayStatus.Running)
    (hnone : m.current_connection = none)
    (hsome : m2.current_connection = some conn) :
    st.start env config = (.ok (), st, [])
    ∧ (m.disconnect.1 = .ok () ∧ m.disconnect.2.1.current_connection = none
        ∧ m.disconnect.2.1.history = m.history)
    ∧ (m2.disconnect.1 = .ok () ∧ m2.disconnect.2.1.current_connection = none
        ∧ m2.disconnect.2.1.history =
            (if (m2.history ++ [{ conn with state := ConnectionState.Disconnected }]).length > 100
             then (m2.history ++ [{ conn with state := ConnectionState.Disconnected }]).tail
             else m2.history ++ [{ conn with state := ConnectionState.Disconnected }])) := by
  refine ⟨?_, ?_, ?_⟩
  · unfold XrayCoreState.start
    rw [if_pos hrun]
  · unfold ConnectionManager.disconnect
    simp [hnone]
  · unfold ConnectionManager.disconnect
    simp [hsome]

/-- Witness for the amended claim C7: `start` on a running supervisor and
`disconnect` on an empty slot, at concrete states. -/
theorem lifecycle_idempotence_witness :
    runningXrayState.start envNotFound XrayConfig.default_config =
      (.ok (), runningXrayState, [])
    ∧ ConnectionManager.new.disconnect.2.1.history = ConnectionManager.new.history := by
  have h := lifecycle_idempotence envNotFound runningXrayState XrayConfig.default_config
    ConnectionManager.new mgrWithDisconnectedRecord disconnectedConn rfl rfl rfl
  exact ⟨h.1, h.2.1.2.2⟩

/-- Claim C10: whenever the supervisor's `start` fails inside
`connect_with_config_and_mode`, the orchestrator returns
`V8RayError::Xray(XrayError::Process(display))` where `display` is the
display string of the supervisor's error — whichever of `NotFound`, `Config`,
`Io` or `Process` the supervisor actually produced. -/
theorem connect_error_collapsed (m : ConnectionManager) (env : StartEnv) (uuid : String)
    (now : Int) (config : ProxyServerConfig) (mode : String) (e : XrayError)
    (h : ((m.connect_prep uuid now config).1.xray.start env
           (XrayConfigGenerator.new.generate_with_mode config mode)).1 = .error e) :
    (m.connect_with_config_and_mode env uuid now config mode).1 =
      .error (V8RayError.Xray (CrateXrayError.Process e.displayString)) := by
  unfold ConnectionManager.connect_with_config_and_mode
  rcases hstart : (m.connect_prep uuid now config).1.xray.start env
      (XrayConfigGenerator.new.generate_with_mode config mode) with ⟨res, xst, evs⟩
  rw [hstart] at h
  cases res with
  | ok u => exact absurd h (by simp)
  | error e2 =>
      have he : e2 = e := by simpa using h
      subst he
      rfl

/-- Witness for claim C10 at the binary-not-found failure: the `NotFound`
supervisor error is returned as `Process("Xray Core not found")`. -/
theorem connect_error_collapsed_witness :
    (ConnectionManager.new.connect_with_config_and_mode envNotFound "u1" 0
        sampleProxyConfig "global").1 =
      .error (V8RayError.Xray (CrateXrayError.Process "Xray Core not found")) :=
  connect_error_collapsed ConnectionManager.new envNotFound "u1" 0 sampleProxyConfig
    "global" XrayError.NotFound rfl
